import Mathlib

/-!
Shallow embedding of the church-website Cloudflare Pages Functions backend:
the catch-all router with CORS injection, the KV-backed news collection
endpoint, the Supabase-backed news create/list endpoints (plain and
admin-authenticated variants), and the single-item update/delete endpoint.

Modelling conventions:
* JavaScript runtime values appearing in request bodies are modelled by the
  inductive `JVal` (strings, numbers, booleans, null, undefined, arrays,
  objects).  Numbers are modelled as integers: no claim here depends on
  float semantics, and all route identifiers and counters in the code are
  integral.
* Header collections are association lists of name/value pairs.  A plain
  record (JS object literal) is such a list with unique keys; the fetch
  Headers view combines entries whose names match case-insensitively, which
  `hGet` reproduces.
* Calls into the external world (KV storage, Supabase, JSON.parse of the
  request body) are passed in as explicit result parameters, and the store
  operations a handler issues are returned as an explicit trace, so that
  properties of the form "no store access happens before X" are statements
  about the trace.
-/

set_option linter.unusedVariables false

namespace ChurchApi

/-- JavaScript runtime values as they occur in parsed JSON bodies and
environment lookups. -/
inductive JVal where
  | jstr (s : String)
  | jnum (n : Int)
  | jbool (b : Bool)
  | jnull
  | jundefined
  | jarr (xs : List JVal)
  | jobj (fields : List (String × JVal))

/-- JavaScript truthiness of a value. -/
def jsTruthy : JVal → Bool
  | .jstr s => s ≠ ""
  | .jnum n => n ≠ 0
  | .jbool b => b
  | .jnull => false
  | .jundefined => false
  | .jarr _ => true
  | .jobj _ => true

/-- JavaScript typeof, restricted to the values of `JVal` (note that
typeof null is the string object in JavaScript). -/
def jsTypeof : JVal → String
  | .jstr _ => "string"
  | .jnum _ => "number"
  | .jbool _ => "boolean"
  | .jnull => "object"
  | .jundefined => "undefined"
  | .jarr _ => "object"
  | .jobj _ => "object"

/-- Property access body.k, returning none for undefined.  Objects coming
out of JSON.parse have unique keys, so plain lookup is faithful. -/
def JVal.get : JVal → String → Option JVal
  | .jobj fs, k => fs.lookup k
  | _, _ => none

/-- The JavaScript in operator on an object value (own-property test). -/
def JVal.hasKey : JVal → String → Bool
  | .jobj fs, k => fs.any (fun p => p.1 == k)
  | _, _ => false

/-- Values on which property reads and the in operator are safe: the update
handler applies them to the parsed body, and throws on primitives/null. -/
def JVal.isObjectLike : JVal → Bool
  | .jobj _ => true
  | .jarr _ => true
  | _ => false

/-- ASCII lowercase folding (all strings this code compares
case-insensitively are ASCII).  Defined over the character list so that it
reduces in the kernel. -/
def sLower (s : String) : String := String.mk (s.data.map Char.toLower)

/-- Whitespace trim over the character list (the JS trim on the values
appearing here). -/
def sTrim (s : String) : String :=
  String.mk
    (((s.data.dropWhile Char.isWhitespace).reverse.dropWhile Char.isWhitespace).reverse)

/-- startsWith over the character lists. -/
def sStartsWith (s pre : String) : Bool := pre.data.isPrefixOf s.data

/-- Case-insensitive header-name comparison. -/
def ciEq (a b : String) : Bool := sLower a == sLower b

/-- Fetch Headers get: all entries whose name matches case-insensitively,
combined in order. -/
def hGet (hs : List (String × String)) (n : String) : Option String :=
  match hs.filter (fun p => ciEq p.1 n) with
  | [] => none
  | xs => some (String.intercalate ", " (xs.map Prod.snd))

/-- Fetch Headers set: drop all case-insensitive matches, append the new
entry. -/
def hSet (hs : List (String × String)) (n v : String) : List (String × String) :=
  hs.filter (fun p => !ciEq p.1 n) ++ [(n, v)]

/-- JS object update obj.k = v (also the effect of spreading a one-key
record): replace the value at an existing key, else append. -/
def recordSet : List (String × String) → String → String → List (String × String)
  | [], k, v => [(k, v)]
  | p :: rest, k, v => if p.1 == k then (k, v) :: rest else p :: recordSet rest k v

/-- JS object spread of upd over base. -/
def recordSpread (base : List (String × String)) :
    List (String × String) → List (String × String)
  | [] => base
  | q :: rest => recordSpread (recordSet base q.1 q.2) rest

/-- An HTTP response: status, JSON body (none for an empty body), headers. -/
structure Response where
  status : Nat
  body : Option JVal
  headers : List (String × String)

/-! ### CORS policy (functions/api/ping.ts and functions/api/news.ts) -/

/-- The fixed CORS allow-list shared by ping.ts and news.ts. -/
def ALLOWED_ORIGINS : List String :=
  ["https://woodong.or.kr", "https://woodong-church.pages.dev",
   "http://localhost:5173", "http://127.0.0.1:5173"]

/-- resolveAllowedOrigin: echo the request Origin header when it is a
nonempty member of the allow-list, else null. -/
def resolveAllowedOrigin (origin : Option String) : Option String :=
  match origin with
  | some o => if o ≠ "" && ALLOWED_ORIGINS.contains o then some o else none
  | none => none

/-- buildCorsHeaders of ping.ts. -/
def buildCorsHeaders (origin : Option String) : List (String × String) :=
  [("Access-Control-Allow-Origin", (resolveAllowedOrigin origin).getD "*"),
   ("Access-Control-Allow-Methods", "GET,OPTIONS"),
   ("Access-Control-Allow-Headers", "Content-Type, Accept, Authorization"),
   ("Access-Control-Max-Age", "86400"),
   ("Vary", "Origin")]

/-- buildCorsHeaders of news.ts (same origin resolution, different method
list). -/
def buildCorsHeadersNews (origin : Option String) : List (String × String) :=
  [("Access-Control-Allow-Origin", (resolveAllowedOrigin origin).getD "*"),
   ("Access-Control-Allow-Methods", "GET,PUT,OPTIONS"),
   ("Access-Control-Allow-Headers", "Content-Type, Accept, Authorization"),
   ("Access-Control-Max-Age", "86400"),
   ("Vary", "Origin")]

/-! ### JSON response builders -/

/-- The json helper of news.ts (also ping.ts): a header record built by
spreading the defaults, then the extra headers, then the init headers, in
that order. -/
def newsJson (data : JVal) (status : Nat)
    (initHeaders extraHeaders : List (String × String)) : Response :=
  { status := status
    body := some data
    headers :=
      recordSpread
        (recordSpread
          [("content-type", "application/json; charset=utf-8"),
           ("cache-control", "no-store")]
          extraHeaders)
        initHeaders }

/-- The json helper of the Supabase-backed handlers: seed Headers from the
init headers, then force content-type and cache-control with Headers.set. -/
def itemJson (data : JVal) (status : Nat)
    (initHeaders : List (String × String)) : Response :=
  { status := status
    body := some data
    headers :=
      hSet (hSet initHeaders "content-type" "application/json; charset=utf-8")
        "cache-control" "no-store" }

/-! ### Catch-all router (functions/[[path]].ts) -/

/-- Outcome of delegating to the file-based routes: a response, no matching
route (ctx.next() returned nothing), or an unhandled runtime fault. -/
inductive Delegated where
  | matched (r : Response)
  | noMatch
  | threw

/-- Router result: an HTTP response, or delegation to static assets. -/
inductive RouterResult where
  | resp (r : Response)
  | staticAssets

/-- onRequest of the catch-all router.  The request Origin header is part of
the request but — notably — never read by this code. -/
def catchAllOnRequest (method path : String) (origin : Option String)
    (d : Delegated) : RouterResult :=
  if sStartsWith path "/api/" && method == "OPTIONS" then
    .resp
      { status := 204, body := none,
        headers :=
          [("Access-Control-Allow-Origin", "*"),
           ("Access-Control-Allow-Methods", "GET,POST,PUT,PATCH,DELETE,OPTIONS"),
           ("Access-Control-Allow-Headers", "Content-Type,Authorization"),
           ("Access-Control-Max-Age", "86400"),
           ("Vary", "Origin")] }
  else if sStartsWith path "/api/" then
    match d with
    | .matched r =>
        .resp { r with
                headers := hSet (hSet r.headers "Access-Control-Allow-Origin" "*")
                  "Vary" "Origin" }
    | .noMatch =>
        .resp
          { status := 404,
            body := some (.jobj [("ok", .jbool false), ("error", .jstr "Not found")]),
            headers :=
              [("content-type", "application/json; charset=utf-8"),
               ("Access-Control-Allow-Origin", "*"),
               ("Vary", "Origin")] }
    | .threw =>
        .resp
          { status := 500,
            body := some (.jobj [("ok", .jbool false), ("error", .jstr "Internal error")]),
            headers :=
              [("content-type", "application/json; charset=utf-8"),
               ("Access-Control-Allow-Origin", "*"),
               ("Vary", "Origin")] }
  else
    .staticAssets

/-! ### News data model (Supabase-backed handlers, src/unnamed/part_001 and
part_002) -/

/-- A stored news row in the external table (snake_case schema).  The
nullable text columns hold a string or null at runtime and are kept as
`JVal` so that ill-typed patch values can be represented faithfully.
created_at/updated_at are store-owned and not modelled. -/
structure DbRow where
  id : Int
  title : String
  date : String
  category : String
  content : String
  file_url : JVal
  file_name : JVal
  file_size : JVal
  views : Int
  is_new : Bool
  show_on_home : Bool
  image_url : JVal

/-- A partial DB row as produced by toDb: none means the key was not
emitted. -/
structure DbPatch where
  title : Option String := none
  date : Option String := none
  category : Option String := none
  content : Option String := none
  file_url : Option JVal := none
  file_name : Option JVal := none
  file_size : Option JVal := none
  views : Option Int := none
  is_new : Option Bool := none
  show_on_home : Option Bool := none
  image_url : Option JVal := none

/-- Property access with the undefined default (body.k in JS). -/
def JVal.pget (v : JVal) (k : String) : JVal := (v.get k).getD .jundefined

/-- The JS expression v ?? null. -/
def nnNull : JVal → JVal
  | .jnull => .jnull
  | .jundefined => .jnull
  | v => v

/-- The JS expression v ?? the empty string. -/
def nnEmpty : JVal → JVal
  | .jnull => .jstr ""
  | .jundefined => .jstr ""
  | v => v

/-- toDb: convert an API body to a partial DB row, emitting a key only when
the corresponding field passes its presence test in the source (typeof
checks for the text/number fields, the in operator for the rest). -/
def toDb (body : JVal) : DbPatch :=
  { title := match body.get "title" with | some (.jstr s) => some (sTrim s) | _ => none
    date := match body.get "date" with | some (.jstr s) => some (sTrim s) | _ => none
    category := match body.get "category" with | some (.jstr s) => some s | _ => none
    content := match body.get "content" with | some (.jstr s) => some s | _ => none
    file_url := if body.hasKey "fileUrl" then some (nnNull (body.pget "fileUrl")) else none
    file_name := if body.hasKey "fileName" then some (nnNull (body.pget "fileName")) else none
    file_size := if body.hasKey "fileSize" then some (nnNull (body.pget "fileSize")) else none
    views := match body.get "views" with | some (.jnum n) => some n | _ => none
    is_new := if body.hasKey "isNew" then some (jsTruthy (body.pget "isNew")) else none
    show_on_home :=
      if body.hasKey "showOnHome" then some (jsTruthy (body.pget "showOnHome")) else none
    image_url := if body.hasKey "imageUrl" then some (nnNull (body.pget "imageUrl")) else none }

/-- Object.keys of a patch, in the emission order of toDb. -/
def DbPatch.keys (p : DbPatch) : List String :=
  (if p.title.isSome then ["title"] else []) ++
  (if p.date.isSome then ["date"] else []) ++
  (if p.category.isSome then ["category"] else []) ++
  (if p.content.isSome then ["content"] else []) ++
  (if p.file_url.isSome then ["file_url"] else []) ++
  (if p.file_name.isSome then ["file_name"] else []) ++
  (if p.file_size.isSome then ["file_size"] else []) ++
  (if p.views.isSome then ["views"] else []) ++
  (if p.is_new.isSome then ["is_new"] else []) ++
  (if p.show_on_home.isSome then ["show_on_home"] else []) ++
  (if p.image_url.isSome then ["image_url"] else [])

/-- The effect of the store applying an update patch to the row with the
matching identifier: exactly the emitted columns take the patch value. -/
def applyPatch (p : DbPatch) (r : DbRow) : DbRow :=
  { r with
    title := p.title.getD r.title
    date := p.date.getD r.date
    category := p.category.getD r.category
    content := p.content.getD r.content
    file_url := p.file_url.getD r.file_url
    file_name := p.file_name.getD r.file_name
    file_size := p.file_size.getD r.file_size
    views := p.views.getD r.views
    is_new := p.is_new.getD r.is_new
    show_on_home := p.show_on_home.getD r.show_on_home
    image_url := p.image_url.getD r.image_url }

/-- The public API shape (camelCase) produced by toApi.  A none in an
optional field is JS undefined and is dropped by JSON serialization. -/
structure ApiPost where
  id : Int
  title : String
  date : String
  category : String
  content : String
  fileUrl : Option JVal
  fileName : Option JVal
  fileSize : Option JVal
  views : Int
  isNew : Bool
  showOnHome : Bool
  imageUrl : Option JVal

/-- The JS expression v ?? undefined on a nullable column. -/
def nnUndef : JVal → Option JVal
  | .jnull => none
  | .jundefined => none
  | v => some v

/-- toApi: convert a DB row to the public camelCase shape. -/
def toApi (r : DbRow) : ApiPost :=
  { id := r.id
    title := r.title
    date := r.date
    category := r.category
    content := r.content
    fileUrl := nnUndef r.file_url
    fileName := nnUndef r.file_name
    fileSize := nnUndef r.file_size
    views := r.views
    isNew := r.is_new
    showOnHome := r.show_on_home
    imageUrl := nnUndef r.image_url }

/-- JSON serialization of an ApiPost, in the field order of toApi;
undefined fields are omitted, as JSON.stringify does. -/
def apiPostToJVal (p : ApiPost) : JVal :=
  .jobj
    ([("id", .jnum p.id), ("title", .jstr p.title), ("date", .jstr p.date),
      ("category", .jstr p.category), ("content", .jstr p.content)] ++
     (match p.fileUrl with | some v => [("fileUrl", v)] | none => []) ++
     (match p.fileName with | some v => [("fileName", v)] | none => []) ++
     (match p.fileSize with | some v => [("fileSize", v)] | none => []) ++
     [("views", .jnum p.views), ("isNew", .jbool p.isNew),
      ("showOnHome", .jbool p.showOnHome)] ++
     (match p.imageUrl with | some v => [("imageUrl", v)] | none => []))

/-- JSON serialization of a raw DB row (the single-item update handler
returns the row unmapped). -/
def dbRowToJVal (r : DbRow) : JVal :=
  .jobj
    [("id", .jnum r.id), ("title", .jstr r.title), ("date", .jstr r.date),
     ("category", .jstr r.category), ("content", .jstr r.content),
     ("file_url", r.file_url), ("file_name", r.file_name),
     ("file_size", r.file_size), ("views", .jnum r.views),
     ("is_new", .jbool r.is_new), ("show_on_home", .jbool r.show_on_home),
     ("image_url", r.image_url)]

/-- The includes test of validateCreate: the category value is one of the
three fixed enumerated strings (strict equality, so only a string value
can match). -/
def categoryOk (body : JVal) : Bool :=
  match body.get "category" with
  | some (.jstr c) => ["주보", "공지사항", "행사안내"].contains c
  | _ => false

/-- validateCreate: minimal field validation for the create operation;
none means the body passed. -/
def validateCreate (body : JVal) : Option String :=
  if !jsTruthy body || jsTypeof body != "object" then some "Invalid JSON body"
  else if !jsTruthy (body.pget "title") || jsTypeof (body.pget "title") != "string" then
    some "title is required"
  else if !jsTruthy (body.pget "date") || jsTypeof (body.pget "date") != "string" then
    some "date is required (YYYY-MM-DD)"
  else if !categoryOk body then some "invalid category"
  else none

/-- The dbRow literal built by the POST branch before insertion (defaults
for optional fields). -/
structure InsertRow where
  title : JVal
  date : JVal
  category : JVal
  content : JVal
  file_url : JVal
  file_name : JVal
  file_size : JVal
  views : JVal
  is_new : Bool
  show_on_home : Bool
  image_url : JVal

/-- The insert record of the POST handlers in part_001. -/
def mkInsertRow (body : JVal) : InsertRow :=
  { title := body.pget "title"
    date := body.pget "date"
    category := body.pget "category"
    content := nnEmpty (body.pget "content")
    file_url := nnNull (body.pget "fileUrl")
    file_name := nnNull (body.pget "fileName")
    file_size := nnNull (body.pget "fileSize")
    views := match body.pget "views" with | .jnum n => .jnum n | _ => .jnum 0
    is_new := jsTruthy (body.pget "isNew")
    show_on_home := jsTruthy (body.pget "showOnHome")
    image_url := nnNull (body.pget "imageUrl") }

/-! ### Environment, admin guard, store traces -/

/-- The Pages environment variables read by the Supabase-backed handlers
(none models an unset variable). -/
structure SupaEnv where
  SUPABASE_URL : Option String := none
  SUPABASE_SERVICE_ROLE_KEY : Option String := none
  SUPABASE_TABLE : Option String := none
  ADMIN_TOKEN : Option String := none

/-- JS truthiness of an optional environment string. -/
def envTruthy : Option String → Bool
  | some s => s != ""
  | none => false

/-- The table expression env.SUPABASE_TABLE with the news_posts default. -/
def tableOf (env : SupaEnv) : String :=
  match env.SUPABASE_TABLE with
  | some s => if s != "" then s else "news_posts"
  | none => "news_posts"

/-- getAdminClient succeeds exactly when both Supabase variables are
truthy; otherwise it throws into the surrounding catch. -/
def supaConfigured (env : SupaEnv) : Bool :=
  envTruthy env.SUPABASE_URL && envTruthy env.SUPABASE_SERVICE_ROLE_KEY

/-- The message of the error thrown by getAdminClient. -/
def supaMisconfigMsg : String :=
  "Missing SUPABASE_URL or SUPABASE_SERVICE_ROLE_KEY in Pages environment"

/-- Placeholder for the engine-specific TypeError message raised when toDb
dereferences a null or primitive body; no claim depends on its text. -/
def typeErrorMsg : String := "TypeError"

/-- getEnvAdminToken: the trimmed ADMIN_TOKEN when it is a nonempty-after-
trim string, else undefined. -/
def getEnvAdminToken (env : SupaEnv) : Option String :=
  match env.ADMIN_TOKEN with
  | some t => if sTrim t != "" then some (sTrim t) else none
  | none => none

/-- The capture of the regex matching a Bearer authorization value
case-insensitively: the scheme word, at least one whitespace character,
then at least one further character; the returned capture is trimmed. -/
def bearerToken (auth : String) : Option String :=
  if sLower (String.mk (auth.data.take 6)) == "bearer" then
    match auth.data.drop 6 with
    | c :: _ :: _ =>
      if c.isWhitespace then some (sTrim (String.mk (auth.data.drop 6))) else none
    | _ => none
  else none

/-- readAdminTokenFromRequest: prefer a nonempty trimmed x-admin-token
header, else parse the authorization header as a Bearer credential. -/
def readAdminTokenFromRequest (xAdmin auth : Option String) : Option String :=
  let fromAuth : Option String :=
    match auth with
    | none => none
    | some a => if a == "" then none else bearerToken a
  match xAdmin with
  | some h => if sTrim h != "" then some (sTrim h) else fromAuth
  | none => fromAuth

/-- Outcome of the admin credential check guarding POST in the
authenticated variant. -/
inductive AdminGuard where
  | misconfigured
  | missing
  | invalid
  | authorized

/-- The credential guard of the authenticated POST branch: fail closed when
the server secret is unconfigured, distinguish a missing credential (none,
or one that is falsy) from a mismatching one. -/
def adminGuard (env : SupaEnv) (xAdmin auth : Option String) : AdminGuard :=
  match getEnvAdminToken env with
  | none => .misconfigured
  | some expected =>
    match readAdminTokenFromRequest xAdmin auth with
    | none => .missing
    | some provided =>
      if provided == "" then .missing
      else if provided == expected then .authorized
      else .invalid

/-- One interaction with the external store (Supabase table or KV). -/
inductive StoreOp where
  | select (table : String)
  | insert (table : String) (row : InsertRow)
  | update (table : String) (patch : DbPatch) (id : Int)
  | delete (table : String) (id : Int)
  | kvGet (key : String)
  | kvPut (key : String) (value : JVal)

/-- The identifier an update or delete filters on, if any. -/
def StoreOp.filterId : StoreOp → Option Int
  | .update _ _ i => some i
  | .delete _ i => some i
  | _ => none

/-- The body shape ok:false, error:msg common to all error responses. -/
def errObj (msg : String) : JVal :=
  .jobj [("ok", .jbool false), ("error", .jstr msg)]

/-! ### Handlers -/

/-- The decimal-integer fragment of the JS Number coercion applied to the
path identifier: undefined coerces to NaN (none), the empty or blank string
to 0, an optionally signed digit string to its value, anything else to NaN.
Route identifiers fall within this fragment. -/
def parseDigits (cs : List Char) : Option Nat :=
  if cs ≠ [] && cs.all Char.isDigit then
    some (cs.foldl (fun a c => a * 10 + (c.toNat - 48)) 0)
  else none

/-- Number(idRaw) for a route identifier (none is NaN). -/
def jsNumber : Option String → Option Int
  | none => none
  | some s =>
    let t := sTrim s
    if t == "" then some 0
    else
      match t.toList with
      | '-' :: rest => (parseDigits rest).map (fun n => -(n : Int))
      | '+' :: rest => (parseDigits rest).map (fun n => (n : Int))
      | cs => (parseDigits cs).map (fun n => (n : Int))

/-- onRequest of the single-item handler (src/unnamed/part_002) for
/api/news/:id.  idNum is the Number coercion of the path parameter;
bodyResult is the outcome of parsing the request body (the code replaces a
parse failure by an empty object); updateResult/deleteResult are the
store outcomes of the respective single calls. -/
def newsItemOnRequest (env : SupaEnv) (method : String) (idNum : Option Int)
    (bodyResult : Except Unit JVal) (updateResult : Except String DbRow)
    (deleteResult : Except String Unit) : Response × List StoreOp :=
  match idNum with
  | none => (itemJson (errObj "Invalid id") 400 [], [])
  | some i =>
    if i == 0 then (itemJson (errObj "Invalid id") 400 [], [])
    else if !supaConfigured env then (itemJson (errObj supaMisconfigMsg) 500 [], [])
    else if method == "PUT" || method == "PATCH" then
      let body := match bodyResult with | .ok v => v | .error _ => .jobj []
      if !body.isObjectLike then (itemJson (errObj typeErrorMsg) 500 [], [])
      else
        let patch := toDb body
        if patch.keys.length == 0 then
          (itemJson (errObj "No fields to update") 400 [], [])
        else
          match updateResult with
          | .ok row =>
              (itemJson (.jobj [("ok", .jbool true), ("item", dbRowToJVal row)]) 200 [],
               [.update (tableOf env) patch i])
          | .error msg =>
              (itemJson (errObj msg) 500 [], [.update (tableOf env) patch i])
    else if method == "DELETE" then
      match deleteResult with
      | .ok _ => (itemJson (.jobj [("ok", .jbool true)]) 200 [], [.delete (tableOf env) i])
      | .error msg => (itemJson (errObj msg) 500 [], [.delete (tableOf env) i])
    else (itemJson (errObj "Method Not Allowed") 405 [], [])

/-- The shared POST body handling of both part_001 variants: parse failure
becomes null, validation failure a 400, then a single insert whose store
outcome decides between 201 and 500. -/
def newsPostCore (env : SupaEnv) (bodyResult : Except Unit JVal)
    (insertResult : Except String DbRow) : Response × List StoreOp :=
  let body := match bodyResult with | .ok v => v | .error _ => .jnull
  match validateCreate body with
  | some msg => (itemJson (errObj msg) 400 [], [])
  | none =>
    match insertResult with
    | .ok row =>
        (itemJson (.jobj [("ok", .jbool true), ("item", apiPostToJVal (toApi row))]) 201 [],
         [.insert (tableOf env) (mkInsertRow body)])
    | .error msg =>
        (itemJson (errObj msg) 500 [], [.insert (tableOf env) (mkInsertRow body)])

/-- The GET list response shared by both part_001 variants. -/
def newsListResponse (rows : List DbRow) : Response :=
  itemJson
    (.jobj [("ok", .jbool true), ("count", .jnum rows.length),
            ("items", .jarr (rows.map (fun r => apiPostToJVal (toApi r))))])
    200 []

/-- onRequest of the plain create/list variant (first document of
src/unnamed/part_001): GET and POST, no admin credential. -/
def newsCreateOnRequest (env : SupaEnv) (method : String)
    (bodyResult : Except Unit JVal) (listResult : Except String (List DbRow))
    (insertResult : Except String DbRow) : Response × List StoreOp :=
  if !supaConfigured env then (itemJson (errObj supaMisconfigMsg) 500 [], [])
  else if method == "GET" then
    match listResult with
    | .ok rows => (newsListResponse rows, [.select (tableOf env)])
    | .error msg => (itemJson (errObj msg) 500 [], [.select (tableOf env)])
  else if method == "POST" then newsPostCore env bodyResult insertResult
  else (itemJson (errObj "Method Not Allowed") 405 [], [])

/-- onRequest of the admin-authenticated variant (second document of
src/unnamed/part_001): GET public, POST behind the credential guard. -/
def newsAuthOnRequest (env : SupaEnv) (method : String)
    (xAdmin auth : Option String) (bodyResult : Except Unit JVal)
    (listResult : Except String (List DbRow)) (insertResult : Except String DbRow) :
    Response × List StoreOp :=
  if !supaConfigured env then (itemJson (errObj supaMisconfigMsg) 500 [], [])
  else if method == "GET" then
    match listResult with
    | .ok rows => (newsListResponse rows, [.select (tableOf env)])
    | .error msg => (itemJson (errObj msg) 500 [], [.select (tableOf env)])
  else if method == "POST" then
    match adminGuard env xAdmin auth with
    | .misconfigured =>
        (itemJson (errObj "Server misconfiguration: ADMIN_TOKEN is not set") 500 [], [])
    | .missing =>
        (itemJson (errObj "Missing admin token") 401
          [("www-authenticate", "Bearer realm=\"admin\", charset=\"UTF-8\"")], [])
    | .invalid => (itemJson (errObj "Invalid admin token") 403 [], [])
    | .authorized => newsPostCore env bodyResult insertResult
  else (itemJson (errObj "Method Not Allowed") 405 [], [])

/-- Contiguous-substring occurrence on character lists. -/
def hasInfix (pat : List Char) : List Char → Bool
  | [] => pat.isEmpty
  | c :: rest => pat.isPrefixOf (c :: rest) || hasInfix pat rest

/-- The substring test of the PUT content-type check in news.ts. -/
def includesAppJson (ctype : String) : Bool :=
  hasInfix "application/json".toList (sLower ctype).toList

/-- The error bodies of news.ts carry error and message fields. -/
def kvErr (e m : String) : JVal :=
  .jobj [("error", .jstr e), ("message", .jstr m)]

/-- onRequest of the KV-backed collection handler (functions/api/news.ts).
kvParse is the JSON.parse outcome of a nonempty stored value; bodyResult
carries the parse-error message because the catch reports it. -/
def newsKvOnRequest (method : String) (origin : Option String)
    (contentType : Option String) (bodyResult : Except String JVal)
    (kvGetResult : Except String (Option String)) (kvParse : Except Unit JVal)
    (kvPutResult : Except String Unit) : Response × List StoreOp :=
  let cors := buildCorsHeadersNews origin
  let allow : List (String × String) := [("Allow", "GET,PUT,OPTIONS")]
  if method == "OPTIONS" then
    ({ status := 204, body := none, headers := cors }, [])
  else if method == "GET" then
    match kvGetResult with
    | .error msg => (newsJson (kvErr "KV_READ_FAILED" msg) 500 [] cors, [.kvGet "posts"])
    | .ok raw =>
      let parsed : JVal :=
        match raw with
        | none => .jarr []
        | some r =>
          if r == "" then .jarr []
          else
            match kvParse with
            | .ok (.jarr xs) => .jarr xs
            | .ok _ => .jarr []
            | .error _ => .jarr []
      (newsJson parsed 200 [] cors, [.kvGet "posts"])
  else if method == "PUT" then
    let ctype := contentType.getD ""
    if !includesAppJson ctype then
      (newsJson (kvErr "UNSUPPORTED_MEDIA_TYPE" "content-type must be application/json")
        415 allow cors, [])
    else
      match bodyResult with
      | .error msg => (newsJson (kvErr "KV_WRITE_FAILED" msg) 500 allow cors, [])
      | .ok (.jarr xs) =>
        (match kvPutResult with
         | .ok _ =>
             (newsJson (.jobj [("ok", .jbool true), ("count", .jnum xs.length)]) 200
               allow cors, [.kvPut "posts" (.jarr xs)])
         | .error msg =>
             (newsJson (kvErr "KV_WRITE_FAILED" msg) 500 allow cors,
              [.kvPut "posts" (.jarr xs)]))
      | .ok _ =>
        (newsJson (kvErr "INVALID_PAYLOAD" "payload must be an array of posts") 400
          allow cors, [])
  else
    (newsJson
      (kvErr "METHOD_NOT_ALLOWED" ("Method " ++ method ++ " not supported")) 405
      allow cors, [])

/-! ### Header lemmas -/

theorem ciEq_true_iff (a b : String) : ciEq a b = true ↔ sLower a = sLower b := by
  simp [ciEq]

theorem ciEq_false_iff (a b : String) : ciEq a b = false ↔ sLower a ≠ sLower b := by
  simp [ciEq]

theorem filter_ci_filter_not_ci (hs : List (String × String)) (n : String) :
    (hs.filter (fun p => !ciEq p.1 n)).filter (fun p => ciEq p.1 n) = [] := by
  induction hs with
  | nil => rfl
  | cons p rest ih =>
    by_cases h : ciEq p.1 n = true
    · simp [List.filter_cons, h, ih]
    · simp only [Bool.not_eq_true] at h
      simp [List.filter_cons, h, ih]

theorem filter_ci_of_ne (hs : List (String × String)) (n m : String)
    (h : ciEq n m = false) :
    (hs.filter (fun p => !ciEq p.1 n)).filter (fun p => ciEq p.1 m) =
      hs.filter (fun p => ciEq p.1 m) := by
  induction hs with
  | nil => rfl
  | cons p rest ih =>
    by_cases hp : ciEq p.1 n = true
    · have hpm : ciEq p.1 m = false := by
        rw [ciEq_false_iff]
        rw [ciEq_true_iff] at hp
        rw [ciEq_false_iff] at h
        rw [hp]; exact h
      simp [List.filter_cons, hp, hpm, ih]
    · simp only [Bool.not_eq_true] at hp
      simp [List.filter_cons, hp, ih]

theorem hGet_hSet_self (hs : List (String × String)) (n v : String) :
    hGet (hSet hs n v) n = some v := by
  unfold hGet hSet
  rw [List.filter_append, filter_ci_filter_not_ci]
  have hnn : ciEq n n = true := by rw [ciEq_true_iff]
  simp [List.filter_cons, hnn, String.intercalate, String.intercalate.go]

theorem hGet_hSet_ne (hs : List (String × String)) (n v m : String)
    (h : ciEq n m = false) : hGet (hSet hs n v) m = hGet hs m := by
  unfold hGet hSet
  rw [List.filter_append, filter_ci_of_ne hs n m h]
  simp [List.filter_cons, h]

/-- The Access-Control-Allow-Origin value of either buildCorsHeaders record
is the resolved origin with the wildcard fallback. -/
theorem acao_buildCorsHeaders (o : Option String) :
    hGet (buildCorsHeaders o) "Access-Control-Allow-Origin" =
      some ((resolveAllowedOrigin o).getD "*") ∧
    hGet (buildCorsHeadersNews o) "Access-Control-Allow-Origin" =
      some ((resolveAllowedOrigin o).getD "*") := by
  have h0 : ciEq "Access-Control-Allow-Origin" "Access-Control-Allow-Origin" = true := rfl
  have h1 : ciEq "Access-Control-Allow-Methods" "Access-Control-Allow-Origin" = false := rfl
  have h2 : ciEq "Access-Control-Allow-Headers" "Access-Control-Allow-Origin" = false := rfl
  have h3 : ciEq "Access-Control-Max-Age" "Access-Control-Allow-Origin" = false := rfl
  have h4 : ciEq "Vary" "Access-Control-Allow-Origin" = false := rfl
  constructor <;>
    simp [hGet, buildCorsHeaders, buildCorsHeadersNews, List.filter_cons, h0, h1, h2, h3,
      h4, String.intercalate, String.intercalate.go]

/-- The Access-Control-Allow-Origin header of a router outcome, when it is a
response. -/
def routerAcao (res : RouterResult) : Option String :=
  match res with
  | .resp r => hGet r.headers "Access-Control-Allow-Origin"
  | .staticAssets => none

/-! ### Claims -/

/-- C1 counterexample: the catch-all router is part of the CORS logic cited
by the claim, yet its preflight response to a request whose Origin is the
allow-listed https woodong.or.kr site carries the wildcard, not
that origin. -/
theorem router_preflight_ignores_allowlisted_origin :
    routerAcao
        (catchAllOnRequest "OPTIONS" "/api/news" (some "https://woodong.or.kr")
          Delegated.noMatch) = some "*" ∧
      "https://woodong.or.kr" ∈ ALLOWED_ORIGINS ∧
      ("*" : String) ≠ "https://woodong.or.kr" := by
  refine ⟨rfl, by decide, by decide⟩

/-- C1 (amended): the per-endpoint helpers buildCorsHeaders of ping.ts and
news.ts echo an allow-listed Origin exactly and answer the wildcard for
every other or absent Origin, while every response produced by the
catch-all router carries the wildcard unconditionally. -/
theorem cors_origin_resolution :
    (∀ o : String, o ∈ ALLOWED_ORIGINS →
        hGet (buildCorsHeaders (some o)) "Access-Control-Allow-Origin" = some o ∧
        hGet (buildCorsHeadersNews (some o)) "Access-Control-Allow-Origin" = some o) ∧
    (∀ o : String, o ∉ ALLOWED_ORIGINS →
        hGet (buildCorsHeaders (some o)) "Access-Control-Allow-Origin" = some "*" ∧
        hGet (buildCorsHeadersNews (some o)) "Access-Control-Allow-Origin" = some "*") ∧
    (hGet (buildCorsHeaders none) "Access-Control-Allow-Origin" = some "*" ∧
      hGet (buildCorsHeadersNews none) "Access-Control-Allow-Origin" = some "*") ∧
    (∀ (m p : String) (o : Option String) (d : Delegated) (out : Response),
        catchAllOnRequest m p o d = .resp out →
        hGet out.headers "Access-Control-Allow-Origin" = some "*") := by
  refine ⟨?_, ?_, ⟨rfl, rfl⟩, ?_⟩
  · intro o ho
    simp only [ALLOWED_ORIGINS, List.mem_cons, List.not_mem_nil, or_false] at ho
    rcases ho with rfl | rfl | rfl | rfl <;> exact ⟨rfl, rfl⟩
  · intro o ho
    have hc : ALLOWED_ORIGINS.contains o = false := by
      simpa using ho
    have hr : resolveAllowedOrigin (some o) = none := by
      simp only [resolveAllowedOrigin]
      rw [hc]
      simp
    refine ⟨?_, ?_⟩
    · rw [(acao_buildCorsHeaders (some o)).1, hr]; rfl
    · rw [(acao_buildCorsHeaders (some o)).2, hr]; rfl
  · intro m p o d out h
    unfold catchAllOnRequest at h
    split at h
    · cases h
      rfl
    · split at h
      · cases d with
        | matched r =>
          simp only [RouterResult.resp.injEq] at h
          subst h
          rw [hGet_hSet_ne _ _ _ _ (by decide), hGet_hSet_self]
        | noMatch =>
          simp only [RouterResult.resp.injEq] at h
          subst h
          rfl
        | threw =>
          simp only [RouterResult.resp.injEq] at h
          subst h
          rfl
      · cases h

/-- C1 witness for the amended theorem. -/
theorem cors_origin_resolution_witness :
    hGet (buildCorsHeaders (some "https://woodong.or.kr"))
        "Access-Control-Allow-Origin" = some "https://woodong.or.kr" ∧
      hGet (buildCorsHeaders (some "https://evil.example"))
        "Access-Control-Allow-Origin" = some "*" := by
  refine ⟨(cors_origin_resolution.1 "https://woodong.or.kr" (by decide)).1,
    (cors_origin_resolution.2.1 "https://evil.example" (by decide)).1⟩

/-- C2: for a non-OPTIONS request on an api path, the router returns the
delegated response (status and body unchanged) when a route matched, a 404
Not found JSON error when none matched, and a 500 Internal error JSON
error when the handler threw; in all three cases the response carries the
Access-Control-Allow-Origin and Vary Origin headers. -/
theorem router_api_delegation (m p : String) (o : Option String)
    (hp : sStartsWith p "/api/" = true) (hm : m ≠ "OPTIONS") :
    (∀ r : Response, ∃ r2 : Response,
        catchAllOnRequest m p o (.matched r) = .resp r2 ∧
        r2.status = r.status ∧ r2.body = r.body ∧
        hGet r2.headers "Access-Control-Allow-Origin" = some "*" ∧
        hGet r2.headers "Vary" = some "Origin") ∧
    (∃ r4 : Response,
        catchAllOnRequest m p o .noMatch = .resp r4 ∧
        r4.status = 404 ∧ r4.body = some (errObj "Not found") ∧
        hGet r4.headers "Access-Control-Allow-Origin" = some "*" ∧
        hGet r4.headers "Vary" = some "Origin") ∧
    (∃ r5 : Response,
        catchAllOnRequest m p o .threw = .resp r5 ∧
        r5.status = 500 ∧ r5.body = some (errObj "Internal error") ∧
        hGet r5.headers "Access-Control-Allow-Origin" = some "*" ∧
        hGet r5.headers "Vary" = some "Origin") := by
  have hbeq : (m == "OPTIONS") = false := by
    simpa using hm
  refine ⟨?_, ?_, ?_⟩
  · intro r
    refine
      ⟨{ r with
          headers := hSet (hSet r.headers "Access-Control-Allow-Origin" "*") "Vary" "Origin" },
        ?_, rfl, rfl, ?_, ?_⟩
    · simp [catchAllOnRequest, hp, hbeq]
    · rw [hGet_hSet_ne _ _ _ _ (by rfl), hGet_hSet_self]
    · rw [hGet_hSet_self]
  · refine
      ⟨{ status := 404, body := some (errObj "Not found"),
         headers :=
           [("content-type", "application/json; charset=utf-8"),
            ("Access-Control-Allow-Origin", "*"), ("Vary", "Origin")] },
        ?_, rfl, rfl, rfl, rfl⟩
    simp [catchAllOnRequest, hp, hbeq, errObj]
  · refine
      ⟨{ status := 500, body := some (errObj "Internal error"),
         headers :=
           [("content-type", "application/json; charset=utf-8"),
            ("Access-Control-Allow-Origin", "*"), ("Vary", "Origin")] },
        ?_, rfl, rfl, rfl, rfl⟩
    simp [catchAllOnRequest, hp, hbeq, errObj]

/-- C2 witness: a concrete GET on an api path, exercised through the
noMatch branch. -/
theorem router_api_delegation_witness :
    sStartsWith "/api/nothing" "/api/" = true ∧ ("GET" : String) ≠ "OPTIONS" ∧
    (∃ r4 : Response,
        catchAllOnRequest "GET" "/api/nothing" none .noMatch = .resp r4 ∧
        r4.status = 404 ∧ r4.body = some (errObj "Not found") ∧
        hGet r4.headers "Access-Control-Allow-Origin" = some "*" ∧
        hGet r4.headers "Vary" = some "Origin") := by
  refine ⟨by decide, by decide, (router_api_delegation "GET" "/api/nothing" none (by decide) (by decide)).2.1⟩

theorem filter_recordSet_of_ne (hs : List (String × String)) (k v n : String)
    (h : ciEq k n = false) :
    (recordSet hs k v).filter (fun p => ciEq p.1 n) =
      hs.filter (fun p => ciEq p.1 n) := by
  induction hs with
  | nil => simp [recordSet, List.filter_cons, h]
  | cons p rest ih =>
    by_cases hp : (p.1 == k) = true
    · have hpk : p.1 = k := by simpa using hp
      simp [recordSet, hp, List.filter_cons, hpk, h]
    · simp only [Bool.not_eq_true] at hp
      simp [recordSet, hp, List.filter_cons, ih]

theorem filter_recordSpread_of_ne (upd : List (String × String)) (n : String)
    (h : ∀ p ∈ upd, ciEq p.1 n = false) :
    ∀ base : List (String × String),
      (recordSpread base upd).filter (fun p => ciEq p.1 n) =
        base.filter (fun p => ciEq p.1 n) := by
  induction upd with
  | nil => intro base; rfl
  | cons q rest ih =>
    intro base
    rw [recordSpread, ih (fun p hp => h p (by simp [hp])),
      filter_recordSet_of_ne _ _ _ _ (h q (by simp))]

theorem hGet_eq_of_filter_eq (l₁ l₂ : List (String × String)) (n : String)
    (h : l₁.filter (fun p => ciEq p.1 n) = l₂.filter (fun p => ciEq p.1 n)) :
    hGet l₁ n = hGet l₂ n := by
  unfold hGet
  rw [h]

/-- C9 counterexample: the news.ts json helper merges the extra headers
after the defaults, so an extra-header map carrying a content-type key
does overwrite the default content-type. -/
theorem news_json_content_type_overridden :
    hGet (newsJson (errObj "x") 200 [] [("content-type", "text/plain")]).headers
        "content-type" = some "text/plain" ∧
      some "text/plain" ≠ some "application/json; charset=utf-8" := by
  exact ⟨rfl, by decide⟩

/-- C9 (amended): the Headers.set based builders of the Supabase handlers
always force content-type application/json and cache-control no-store over
any provided headers; the news.ts builder sets them as defaults which are
preserved whenever the extra and init header maps contain no content-type
or cache-control key (case-insensitively) — as is the case for the Allow
and CORS headers the handlers pass — but can be overwritten by maps that do
contain such a key. -/
theorem json_builder_header_defaults :
    (∀ (d : JVal) (st : Nat) (init : List (String × String)),
        hGet (itemJson d st init).headers "content-type" =
          some "application/json; charset=utf-8" ∧
        hGet (itemJson d st init).headers "cache-control" = some "no-store") ∧
    (∀ (d : JVal) (st : Nat) (init extras : List (String × String)),
        (∀ p ∈ extras, ciEq p.1 "content-type" = false ∧ ciEq p.1 "cache-control" = false) →
        (∀ p ∈ init, ciEq p.1 "content-type" = false ∧ ciEq p.1 "cache-control" = false) →
        hGet (newsJson d st init extras).headers "content-type" =
          some "application/json; charset=utf-8" ∧
        hGet (newsJson d st init extras).headers "cache-control" = some "no-store") := by
  constructor
  · intro d st init
    constructor
    · rw [itemJson]
      rw [hGet_hSet_ne _ _ _ _ (by rfl), hGet_hSet_self]
    · rw [itemJson]
      rw [hGet_hSet_self]
  · intro d st init extras hex hin
    constructor
    · rw [newsJson]
      rw [hGet_eq_of_filter_eq _
          [("content-type", "application/json; charset=utf-8"),
           ("cache-control", "no-store")] "content-type" ?_]
      · rfl
      · rw [filter_recordSpread_of_ne init _ (fun p hp => (hin p hp).1),
          filter_recordSpread_of_ne extras _ (fun p hp => (hex p hp).1)]
    · rw [newsJson]
      rw [hGet_eq_of_filter_eq _
          [("content-type", "application/json; charset=utf-8"),
           ("cache-control", "no-store")] "cache-control" ?_]
      · rfl
      · rw [filter_recordSpread_of_ne init _ (fun p hp => (hin p hp).2),
          filter_recordSpread_of_ne extras _ (fun p hp => (hex p hp).2)]

/-- C9 witness: the 415 response of the PUT handler, whose init headers
carry Allow and whose extras are the CORS record. -/
theorem json_builder_header_defaults_witness :
    hGet (newsJson (errObj "x") 415 [("Allow", "GET,PUT,OPTIONS")]
          (buildCorsHeadersNews none)).headers "content-type" =
        some "application/json; charset=utf-8" ∧
      hGet (newsJson (errObj "x") 415 [("Allow", "GET,PUT,OPTIONS")]
          (buildCorsHeadersNews none)).headers "cache-control" = some "no-store" := by
  exact json_builder_header_defaults.2 (errObj "x") 415 [("Allow", "GET,PUT,OPTIONS")]
    (buildCorsHeadersNews none) (by decide) (by decide)

/-- C6: the whole-collection PUT rejects a non-JSON content-type with 415
and a non-array JSON body with 400, both before any store write; an array
body issues exactly one store write of the submitted array and, when the
write succeeds, answers 200 with ok true and count equal to the array
length. -/
theorem news_put_collection :
    (∀ (o ct : Option String) (br : Except String JVal)
        (kg : Except String (Option String)) (kp : Except Unit JVal)
        (kw : Except String Unit),
        includesAppJson (ct.getD "") = false →
        (newsKvOnRequest "PUT" o ct br kg kp kw).1.status = 415 ∧
          (newsKvOnRequest "PUT" o ct br kg kp kw).2 = []) ∧
    (∀ (o ct : Option String) (v : JVal) (kg : Except String (Option String))
        (kp : Except Unit JVal) (kw : Except String Unit),
        includesAppJson (ct.getD "") = true → (∀ xs, v ≠ .jarr xs) →
        (newsKvOnRequest "PUT" o ct (.ok v) kg kp kw).1.status = 400 ∧
          (newsKvOnRequest "PUT" o ct (.ok v) kg kp kw).2 = []) ∧
    (∀ (o ct : Option String) (xs : List JVal) (kg : Except String (Option String))
        (kp : Except Unit JVal) (kw : Except String Unit),
        includesAppJson (ct.getD "") = true →
        (newsKvOnRequest "PUT" o ct (.ok (.jarr xs)) kg kp kw).2 =
            [.kvPut "posts" (.jarr xs)] ∧
          (kw = .ok () →
            (newsKvOnRequest "PUT" o ct (.ok (.jarr xs)) kg kp kw).1.status = 200 ∧
              (newsKvOnRequest "PUT" o ct (.ok (.jarr xs)) kg kp kw).1.body =
                some (.jobj [("ok", .jbool true), ("count", .jnum xs.length)]))) := by
  refine ⟨?_, ?_, ?_⟩
  · intro o ct br kg kp kw h
    simp [newsKvOnRequest, newsJson, h]
  · intro o ct v kg kp kw h hv
    cases v with
    | jarr xs => exact absurd rfl (hv xs)
    | jstr s => simp [newsKvOnRequest, newsJson, h]
    | jnum n => simp [newsKvOnRequest, newsJson, h]
    | jbool b => simp [newsKvOnRequest, newsJson, h]
    | jnull => simp [newsKvOnRequest, newsJson, h]
    | jundefined => simp [newsKvOnRequest, newsJson, h]
    | jobj fs => simp [newsKvOnRequest, newsJson, h]
  · intro o ct xs kg kp kw h
    refine ⟨?_, ?_⟩
    · cases kw with
      | ok u => simp [newsKvOnRequest, newsJson, h]
      | error msg => simp [newsKvOnRequest, newsJson, h]
    · intro hkw
      subst hkw
      constructor <;> simp [newsKvOnRequest, newsJson, h]

/-- C6 witness: a concrete JSON PUT with a one-element array, and a
concrete empty-object PUT. -/
theorem news_put_collection_witness :
    (includesAppJson ((some "application/json").getD "") = true ∧
      (newsKvOnRequest "PUT" none (some "application/json")
          (.ok (.jarr [.jobj [("title", .jstr "a")]])) (.ok none) (.error ())
          (.ok ())).1.status = 200) ∧
    ((∀ xs, JVal.jobj [] ≠ .jarr xs) ∧
      (newsKvOnRequest "PUT" none (some "application/json") (.ok (.jobj []))
          (.ok none) (.error ()) (.ok ())).1.status = 400) := by
  refine ⟨⟨by decide, ?_⟩, ⟨(by intro xs h; cases h), ?_⟩⟩
  · exact ((news_put_collection.2.2 none (some "application/json")
      [.jobj [("title", .jstr "a")]] (.ok none) (.error ()) (.ok ())
      (by decide)).2 rfl).1
  · exact (news_put_collection.2.1 none (some "application/json") (.jobj [])
      (.ok none) (.error ()) (.ok ()) (by decide) (by intro xs h; cases h)).1

/-! ### Typed partial-update bodies (the declared domain of toDb) -/

/-- A body conforming to the Partial ApiNewsPost type of the update
handler: each field is either absent or carries a value of its declared
type; the nullable file and image fields may also carry an explicit
null. -/
structure UpdateBody where
  title : Option String := none
  date : Option String := none
  category : Option String := none
  content : Option String := none
  fileUrl : Option (Option String) := none
  fileName : Option (Option String) := none
  fileSize : Option (Option String) := none
  views : Option Int := none
  isNew : Option Bool := none
  showOnHome : Option Bool := none
  imageUrl : Option (Option String) := none

/-- A nullable string field value as a JS value. -/
def embNullable : Option String → JVal
  | some s => .jstr s
  | none => .jnull

/-- One optional key of a JSON object. -/
def optEntry (name : String) (v : Option JVal) : List (String × JVal) :=
  match v with
  | some x => [(name, x)]
  | none => []

/-- The JSON object for a typed partial body: exactly the present keys. -/
def UpdateBody.toJVal (b : UpdateBody) : JVal :=
  .jobj
    (optEntry "title" (b.title.map .jstr) ++ optEntry "date" (b.date.map .jstr) ++
     optEntry "category" (b.category.map .jstr) ++
     optEntry "content" (b.content.map .jstr) ++
     optEntry "fileUrl" (b.fileUrl.map embNullable) ++
     optEntry "fileName" (b.fileName.map embNullable) ++
     optEntry "fileSize" (b.fileSize.map embNullable) ++
     optEntry "views" (b.views.map .jnum) ++ optEntry "isNew" (b.isNew.map .jbool) ++
     optEntry "showOnHome" (b.showOnHome.map .jbool) ++
     optEntry "imageUrl" (b.imageUrl.map embNullable))

theorem lookup_append (k : String) (l₁ l₂ : List (String × JVal)) :
    List.lookup k (l₁ ++ l₂) =
      (List.lookup k l₁).orElse (fun _ => List.lookup k l₂) := by
  induction l₁ with
  | nil => simp
  | cons p rest ih => by_cases h : (k == p.1) = true <;> simp [List.lookup, h, ih]

theorem lookup_optEntry (k name : String) (v : Option JVal) :
    List.lookup k (optEntry name v) = if (k == name) = true then v else none := by
  cases v with
  | none => simp [optEntry]
  | some x =>
    by_cases h : (k == name) = true <;> simp [optEntry, List.lookup, h]

theorem any_optEntry (k name : String) (v : Option JVal) :
    (optEntry name v).any (fun p => p.1 == k) = (v.isSome && (name == k)) := by
  cases v <;> simp [optEntry]

/-- Shared simp set for computing toDb on a typed body. -/
theorem toDb_field_title (b : UpdateBody) :
    (toDb b.toJVal).title = b.title.map sTrim := by
  cases h : b.title <;>
    simp [toDb, UpdateBody.toJVal, JVal.get, JVal.pget, JVal.hasKey, lookup_append,
      lookup_optEntry, any_optEntry, h]

theorem toDb_field_date (b : UpdateBody) :
    (toDb b.toJVal).date = b.date.map sTrim := by
  cases h : b.date <;>
    simp [toDb, UpdateBody.toJVal, JVal.get, JVal.pget, JVal.hasKey, lookup_append,
      lookup_optEntry, any_optEntry, h]

theorem toDb_field_category (b : UpdateBody) :
    (toDb b.toJVal).category = b.category := by
  cases h : b.category <;>
    simp [toDb, UpdateBody.toJVal, JVal.get, JVal.pget, JVal.hasKey, lookup_append,
      lookup_optEntry, any_optEntry, h]

theorem toDb_field_content (b : UpdateBody) :
    (toDb b.toJVal).content = b.content := by
  cases h : b.content <;>
    simp [toDb, UpdateBody.toJVal, JVal.get, JVal.pget, JVal.hasKey, lookup_append,
      lookup_optEntry, any_optEntry, h]

theorem toDb_field_file_url (b : UpdateBody) :
    (toDb b.toJVal).file_url = b.fileUrl.map embNullable := by
  cases h : b.fileUrl with
  | none =>
    simp [toDb, UpdateBody.toJVal, JVal.get, JVal.pget, JVal.hasKey, lookup_append,
      lookup_optEntry, any_optEntry, h]
  | some v =>
    cases v <;>
      simp [toDb, UpdateBody.toJVal, JVal.get, JVal.pget, JVal.hasKey, lookup_append,
        lookup_optEntry, any_optEntry, h, nnNull, embNullable]

theorem toDb_field_file_name (b : UpdateBody) :
    (toDb b.toJVal).file_name = b.fileName.map embNullable := by
  cases h : b.fileName with
  | none =>
    simp [toDb, UpdateBody.toJVal, JVal.get, JVal.pget, JVal.hasKey, lookup_append,
      lookup_optEntry, any_optEntry, h]
  | some v =>
    cases v <;>
      simp [toDb, UpdateBody.toJVal, JVal.get, JVal.pget, JVal.hasKey, lookup_append,
        lookup_optEntry, any_optEntry, h, nnNull, embNullable]

theorem toDb_field_file_size (b : UpdateBody) :
    (toDb b.toJVal).file_size = b.fileSize.map embNullable := by
  cases h : b.fileSize with
  | none =>
    simp [toDb, UpdateBody.toJVal, JVal.get, JVal.pget, JVal.hasKey, lookup_append,
      lookup_optEntry, any_optEntry, h]
  | some v =>
    cases v <;>
      simp [toDb, UpdateBody.toJVal, JVal.get, JVal.pget, JVal.hasKey, lookup_append,
        lookup_optEntry, any_optEntry, h, nnNull, embNullable]

theorem toDb_field_views (b : UpdateBody) :
    (toDb b.toJVal).views = b.views := by
  cases h : b.views <;>
    simp [toDb, UpdateBody.toJVal, JVal.get, JVal.pget, JVal.hasKey, lookup_append,
      lookup_optEntry, any_optEntry, h]

theorem toDb_field_is_new (b : UpdateBody) :
    (toDb b.toJVal).is_new = b.isNew := by
  cases h : b.isNew <;>
    simp [toDb, UpdateBody.toJVal, JVal.get, JVal.pget, JVal.hasKey, lookup_append,
      lookup_optEntry, any_optEntry, h, jsTruthy]

theorem toDb_field_show_on_home (b : UpdateBody) :
    (toDb b.toJVal).show_on_home = b.showOnHome := by
  cases h : b.showOnHome <;>
    simp [toDb, UpdateBody.toJVal, JVal.get, JVal.pget, JVal.hasKey, lookup_append,
      lookup_optEntry, any_optEntry, h, jsTruthy]

theorem toDb_field_image_url (b : UpdateBody) :
    (toDb b.toJVal).image_url = b.imageUrl.map embNullable := by
  cases h : b.imageUrl with
  | none =>
    simp [toDb, UpdateBody.toJVal, JVal.get, JVal.pget, JVal.hasKey, lookup_append,
      lookup_optEntry, any_optEntry, h]
  | some v =>
    cases v <;>
      simp [toDb, UpdateBody.toJVal, JVal.get, JVal.pget, JVal.hasKey, lookup_append,
        lookup_optEntry, any_optEntry, h, nnNull, embNullable]

/-- A concrete configured environment for witnesses. -/
def sampleEnv : SupaEnv :=
  { SUPABASE_URL := some "https://example.supabase.co",
    SUPABASE_SERVICE_ROLE_KEY := some "service-key", SUPABASE_TABLE := none,
    ADMIN_TOKEN := some "secret" }

/-- A concrete stored row for witnesses. -/
def sampleRow : DbRow :=
  { id := 7, title := "t", date := "2024-01-01", category := "주보", content := "c",
    file_url := .jnull, file_name := .jnull, file_size := .jnull, views := 3,
    is_new := false, show_on_home := true, image_url := .jnull }

/-- C3: on its declared domain, toDb emits exactly the fields present in
the body (fieldwise value equations, hence presence iff presence); applying
the patch leaves the identifier and every absent field's column unchanged;
and a body producing the empty patch makes PUT/PATCH answer 400 No fields
to update with no store access. -/
theorem toDb_partial_patch :
    (∀ b : UpdateBody,
        (toDb b.toJVal).title = b.title.map sTrim ∧
        (toDb b.toJVal).date = b.date.map sTrim ∧
        (toDb b.toJVal).category = b.category ∧
        (toDb b.toJVal).content = b.content ∧
        (toDb b.toJVal).file_url = b.fileUrl.map embNullable ∧
        (toDb b.toJVal).file_name = b.fileName.map embNullable ∧
        (toDb b.toJVal).file_size = b.fileSize.map embNullable ∧
        (toDb b.toJVal).views = b.views ∧
        (toDb b.toJVal).is_new = b.isNew ∧
        (toDb b.toJVal).show_on_home = b.showOnHome ∧
        (toDb b.toJVal).image_url = b.imageUrl.map embNullable) ∧
    (∀ (b : UpdateBody) (r : DbRow),
        (applyPatch (toDb b.toJVal) r).id = r.id ∧
        (b.title = none → (applyPatch (toDb b.toJVal) r).title = r.title) ∧
        (b.date = none → (applyPatch (toDb b.toJVal) r).date = r.date) ∧
        (b.category = none → (applyPatch (toDb b.toJVal) r).category = r.category) ∧
        (b.content = none → (applyPatch (toDb b.toJVal) r).content = r.content) ∧
        (b.fileUrl = none → (applyPatch (toDb b.toJVal) r).file_url = r.file_url) ∧
        (b.fileName = none → (applyPatch (toDb b.toJVal) r).file_name = r.file_name) ∧
        (b.fileSize = none → (applyPatch (toDb b.toJVal) r).file_size = r.file_size) ∧
        (b.views = none → (applyPatch (toDb b.toJVal) r).views = r.views) ∧
        (b.isNew = none → (applyPatch (toDb b.toJVal) r).is_new = r.is_new) ∧
        (b.showOnHome = none →
          (applyPatch (toDb b.toJVal) r).show_on_home = r.show_on_home) ∧
        (b.imageUrl = none → (applyPatch (toDb b.toJVal) r).image_url = r.image_url)) ∧
    (∀ (env : SupaEnv) (m : String) (i : Int) (body : JVal)
        (ur : Except String DbRow) (dr : Except String Unit),
        supaConfigured env = true → (m = "PUT" ∨ m = "PATCH") → (i == 0) = false →
        body.isObjectLike = true → (toDb body).keys = [] →
        (newsItemOnRequest env m (some i) (.ok body) ur dr).1.status = 400 ∧
          (newsItemOnRequest env m (some i) (.ok body) ur dr).1.body =
            some (errObj "No fields to update") ∧
          (newsItemOnRequest env m (some i) (.ok body) ur dr).2 = []) := by
  refine ⟨?_, ?_, ?_⟩
  · intro b
    exact ⟨toDb_field_title b, toDb_field_date b, toDb_field_category b,
      toDb_field_content b, toDb_field_file_url b, toDb_field_file_name b,
      toDb_field_file_size b, toDb_field_views b, toDb_field_is_new b,
      toDb_field_show_on_home b, toDb_field_image_url b⟩
  · intro b r
    refine ⟨rfl, ?_, ?_, ?_, ?_, ?_, ?_, ?_, ?_, ?_, ?_, ?_⟩ <;> intro h
    · simp [applyPatch, toDb_field_title b, h]
    · simp [applyPatch, toDb_field_date b, h]
    · simp [applyPatch, toDb_field_category b, h]
    · simp [applyPatch, toDb_field_content b, h]
    · simp [applyPatch, toDb_field_file_url b, h]
    · simp [applyPatch, toDb_field_file_name b, h]
    · simp [applyPatch, toDb_field_file_size b, h]
    · simp [applyPatch, toDb_field_views b, h]
    · simp [applyPatch, toDb_field_is_new b, h]
    · simp [applyPatch, toDb_field_show_on_home b, h]
    · simp [applyPatch, toDb_field_image_url b, h]
  · intro env m i body ur dr hcfg hm hi hobj hkeys
    rcases hm with rfl | rfl <;>
      simp [newsItemOnRequest, itemJson, hi, hcfg, hobj, hkeys]

/-- C3 witness: a patch supplying only the title leaves the content column
of a concrete row unchanged, and the empty object body yields 400. -/
theorem toDb_partial_patch_witness :
    (applyPatch (toDb ({ title := some "b" } : UpdateBody).toJVal) sampleRow).content =
        sampleRow.content ∧
      (newsItemOnRequest sampleEnv "PUT" (some 7) (.ok (.jobj [])) (.error "e")
          (.error "e")).1.status = 400 := by
  refine ⟨(toDb_partial_patch.2.1 { title := some "b" } sampleRow).2.2.2.2.1 rfl, ?_⟩
  exact (toDb_partial_patch.2.2 sampleEnv "PUT" 7 (.jobj []) (.error "e") (.error "e")
    (by decide) (Or.inl rfl) (by decide) (by decide) (by decide)).1

/-- The store trace of the single-item handler on a nonzero identifier is
empty, a single update on that identifier, or a single delete on it. -/
theorem newsItemOps_shape (env : SupaEnv) (m : String) (j : Int)
    (br : Except Unit JVal) (ur : Except String DbRow) (dr : Except String Unit)
    (hj : (j == 0) = false) :
    (newsItemOnRequest env m (some j) br ur dr).2 = [] ∨
      (∃ p, (newsItemOnRequest env m (some j) br ur dr).2 =
        [.update (tableOf env) p j]) ∨
      (newsItemOnRequest env m (some j) br ur dr).2 = [.delete (tableOf env) j] := by
  unfold newsItemOnRequest
  simp only [hj, Bool.false_eq_true, if_false]
  repeat' split
  all_goals
    first
      | exact Or.inl rfl
      | exact Or.inr (Or.inl ⟨_, rfl⟩)
      | exact Or.inr (Or.inr rfl)

/-- C7 counterexample: the guard only rejects a zero or NaN coercion, so
the path identifier -5 passes it and the delete reaches the store with the
negative — not positive — identifier -5. -/
theorem delete_negative_id_reaches_store :
    jsNumber (some "-5") = some (-5) ∧
      (newsItemOnRequest sampleEnv "DELETE" (jsNumber (some "-5")) (.error ())
          (.error "e") (.ok ())).2 = [.delete "news_posts" (-5)] ∧
      ¬(0 < (-5 : Int)) := by
  exact ⟨by decide, rfl, by decide⟩

/-- C7 (amended): PUT, PATCH and DELETE reject a non-numeric (NaN) or zero
path identifier with 400 Invalid id before any store access, and every
identifier that reaches a store query is a nonzero number — though not
necessarily a positive one, since negative identifiers pass the guard. -/
theorem item_id_guard :
    (∀ (env : SupaEnv) (m : String) (br : Except Unit JVal)
        (ur : Except String DbRow) (dr : Except String Unit),
        ((newsItemOnRequest env m none br ur dr).1.status = 400 ∧
          (newsItemOnRequest env m none br ur dr).1.body =
            some (errObj "Invalid id") ∧
          (newsItemOnRequest env m none br ur dr).2 = []) ∧
        ((newsItemOnRequest env m (some 0) br ur dr).1.status = 400 ∧
          (newsItemOnRequest env m (some 0) br ur dr).1.body =
            some (errObj "Invalid id") ∧
          (newsItemOnRequest env m (some 0) br ur dr).2 = [])) ∧
    (∀ (env : SupaEnv) (m : String) (idNum : Option Int) (br : Except Unit JVal)
        (ur : Except String DbRow) (dr : Except String Unit) (op : StoreOp) (i : Int),
        op ∈ (newsItemOnRequest env m idNum br ur dr).2 →
        op.filterId = some i → i ≠ 0) := by
  constructor
  · intro env m br ur dr
    constructor <;> exact ⟨by simp [newsItemOnRequest, itemJson],
      by simp [newsItemOnRequest, itemJson], by simp [newsItemOnRequest]⟩
  · intro env m idNum br ur dr op i hmem hfid
    cases idNum with
    | none => simp [newsItemOnRequest] at hmem
    | some j =>
      by_cases hj : (j == 0) = true
      · simp [newsItemOnRequest, hj] at hmem
      · have hj0 : j ≠ 0 := by simpa using hj
        have hjf : (j == 0) = false := by simpa using hj
        rcases newsItemOps_shape env m j br ur dr hjf with hops | ⟨p, hops⟩ | hops <;>
          rw [hops] at hmem
        · simp at hmem
        · simp at hmem
          subst hmem
          simp only [StoreOp.filterId, Option.some.injEq] at hfid
          subst hfid
          exact hj0
        · simp at hmem
          subst hmem
          simp only [StoreOp.filterId, Option.some.injEq] at hfid
          subst hfid
          exact hj0

/-- C7 witness for the amended theorem: NaN and zero identifiers, and a
concrete delete whose store identifier is nonzero. -/
theorem item_id_guard_witness :
    (newsItemOnRequest sampleEnv "DELETE" none (.error ()) (.error "e")
        (.ok ())).1.status = 400 ∧
      (newsItemOnRequest sampleEnv "DELETE" (some 0) (.error ()) (.error "e")
          (.ok ())).1.status = 400 ∧
      ((StoreOp.delete "news_posts" 9).filterId = some 9 → (9 : Int) ≠ 0) := by
  refine ⟨(item_id_guard.1 sampleEnv "DELETE" (.error ()) (.error "e") (.ok ())).1.1,
    (item_id_guard.1 sampleEnv "DELETE" (.error ()) (.error "e") (.ok ())).2.1, ?_⟩
  intro h
  exact item_id_guard.2 sampleEnv "DELETE" (some 9) (.error ()) (.error "e") (.ok ())
    (.delete "news_posts" 9) 9 (List.Mem.head _) h

/-- C10: on a valid identifier, a PUT or PATCH whose body fails to parse is
handled exactly like one whose body is the empty object: the handler
answers 400 No fields to update, issues no store operation, and never
produces a parse error or 500. -/
theorem put_unparseable_body_as_empty :
    ∀ (env : SupaEnv) (m : String) (i : Int) (ur : Except String DbRow)
      (dr : Except String Unit),
      supaConfigured env = true → (m = "PUT" ∨ m = "PATCH") → (i == 0) = false →
      ((newsItemOnRequest env m (some i) (.error ()) ur dr).1.status = 400 ∧
        (newsItemOnRequest env m (some i) (.error ()) ur dr).1.body =
          some (errObj "No fields to update") ∧
        (newsItemOnRequest env m (some i) (.error ()) ur dr).2 = []) ∧
      newsItemOnRequest env m (some i) (.error ()) ur dr =
        newsItemOnRequest env m (some i) (.ok (.jobj [])) ur dr := by
  intro env m i ur dr hcfg hm hi
  refine ⟨?_, rfl⟩
  rcases hm with rfl | rfl <;>
    simp [newsItemOnRequest, itemJson, hi, hcfg, toDb, DbPatch.keys, JVal.get,
      JVal.hasKey, JVal.isObjectLike]

/-- C10 witness: a concrete PATCH with unparseable body on id 7. -/
theorem put_unparseable_body_as_empty_witness :
    supaConfigured sampleEnv = true ∧
      (newsItemOnRequest sampleEnv "PATCH" (some 7) (.error ()) (.error "e")
          (.error "e")).1.status = 400 := by
  exact ⟨by decide, ((put_unparseable_body_as_empty sampleEnv "PATCH" 7 (.error "e")
    (.error "e") (by decide) (Or.inr rfl) (by decide)).1).1⟩

/-- C4: POST answers 400 with the validation message whenever
validateCreate rejects; validateCreate rejects every non-object body,
every body with a missing/empty/non-string title (message title is
required), every body with a bad date, and every body whose category is
not one of the three fixed values; and on a body that passes, the inserted
row defaults content to the empty string, views to 0 when not supplied as
a number, and is_new/show_on_home to false when the flags are absent. -/
theorem post_create_validation_and_defaults :
    (∀ (env : SupaEnv) (body : JVal) (lr : Except String (List DbRow))
        (ir : Except String DbRow) (msg : String),
        supaConfigured env = true → validateCreate body = some msg →
        (newsCreateOnRequest env "POST" (.ok body) lr ir).1.status = 400 ∧
          (newsCreateOnRequest env "POST" (.ok body) lr ir).1.body =
            some (errObj msg) ∧
          (newsCreateOnRequest env "POST" (.ok body) lr ir).2 = []) ∧
    (∀ body : JVal, (jsTruthy body = false ∨ jsTypeof body ≠ "object") →
        validateCreate body = some "Invalid JSON body") ∧
    (∀ body : JVal, jsTruthy body = true → jsTypeof body = "object" →
        (jsTruthy (body.pget "title") = false ∨
          jsTypeof (body.pget "title") ≠ "string") →
        validateCreate body = some "title is required") ∧
    (∀ body : JVal, jsTruthy body = true → jsTypeof body = "object" →
        jsTruthy (body.pget "title") = true → jsTypeof (body.pget "title") = "string" →
        (jsTruthy (body.pget "date") = false ∨
          jsTypeof (body.pget "date") ≠ "string") →
        validateCreate body = some "date is required (YYYY-MM-DD)") ∧
    (∀ body : JVal, jsTruthy body = true → jsTypeof body = "object" →
        jsTruthy (body.pget "title") = true → jsTypeof (body.pget "title") = "string" →
        jsTruthy (body.pget "date") = true → jsTypeof (body.pget "date") = "string" →
        categoryOk body = false → validateCreate body = some "invalid category") ∧
    (∀ (env : SupaEnv) (body : JVal) (lr : Except String (List DbRow))
        (ir : Except String DbRow),
        supaConfigured env = true → validateCreate body = none →
        (newsCreateOnRequest env "POST" (.ok body) lr ir).2 =
            [.insert (tableOf env) (mkInsertRow body)] ∧
          (body.get "content" = none → (mkInsertRow body).content = .jstr "") ∧
          ((∀ n : Int, body.get "views" ≠ some (.jnum n)) →
            (mkInsertRow body).views = .jnum 0) ∧
          (body.get "isNew" = none → (mkInsertRow body).is_new = false) ∧
          (body.get "showOnHome" = none →
            (mkInsertRow body).show_on_home = false)) := by
  refine ⟨?_, ?_, ?_, ?_, ?_, ?_⟩
  · intro env body lr ir msg hcfg hv
    refine ⟨?_, ?_, ?_⟩ <;>
      simp [newsCreateOnRequest, newsPostCore, hv, hcfg, itemJson]
  · intro body h
    rcases h with h | h <;> simp [validateCreate, h]
  · intro body h1 h2 h
    rcases h with h | h <;> simp [validateCreate, h1, h2, h]
  · intro body h1 h2 h3 h4 h
    rcases h with h | h <;> simp [validateCreate, h1, h2, h3, h4, h]
  · intro body h1 h2 h3 h4 h5 h6 hc
    simp [validateCreate, h1, h2, h3, h4, h5, h6, hc]
  · intro env body lr ir hcfg hv
    refine ⟨?_, ?_, ?_, ?_, ?_⟩
    · cases hins : ir <;>
        simp [newsCreateOnRequest, newsPostCore, hv, hcfg, hins]
    · intro h
      simp [mkInsertRow, JVal.pget, h, nnEmpty]
    · intro h
      rcases hv2 : body.get "views" with _ | v
      · simp [mkInsertRow, JVal.pget, hv2]
      · cases v <;> first
          | exact absurd hv2 (h _)
          | simp [mkInsertRow, JVal.pget, hv2]
    · intro h
      simp [mkInsertRow, JVal.pget, h, jsTruthy]
    · intro h
      simp [mkInsertRow, JVal.pget, h, jsTruthy]

/-- C4 witness: a body missing the title, a body with an invalid category,
and a minimal valid body with absent optionals. -/
theorem post_create_validation_and_defaults_witness :
    (newsCreateOnRequest sampleEnv "POST"
        (.ok (.jobj [("date", .jstr "2024-01-01"), ("category", .jstr "주보")]))
        (.error "e") (.error "e")).1.body = some (errObj "title is required") ∧
      validateCreate
          (.jobj [("title", .jstr "a"), ("date", .jstr "2024-01-01"),
            ("category", .jstr "invalid")]) = some "invalid category" ∧
      (mkInsertRow (.jobj [("title", .jstr "a"), ("date", .jstr "2024-01-01"),
          ("category", .jstr "주보")])).content = .jstr "" := by
  refine ⟨?_, ?_, ?_⟩
  · exact (post_create_validation_and_defaults.1 sampleEnv
      (.jobj [("date", .jstr "2024-01-01"), ("category", .jstr "주보")])
      (.error "e") (.error "e") "title is required" (by decide)
      (post_create_validation_and_defaults.2.2.1
        (.jobj [("date", .jstr "2024-01-01"), ("category", .jstr "주보")])
        (by decide) (by decide) (Or.inl (by decide)))).2.1
  · exact post_create_validation_and_defaults.2.2.2.2.1
      (.jobj [("title", .jstr "a"), ("date", .jstr "2024-01-01"),
        ("category", .jstr "invalid")])
      (by decide) (by decide) (by decide) (by decide) (by decide) (by decide) (by decide)
  · exact ((post_create_validation_and_defaults.2.2.2.2.2 sampleEnv
      (.jobj [("title", .jstr "a"), ("date", .jstr "2024-01-01"),
        ("category", .jstr "주보")]) (.error "e") (.error "e") (by decide)
      (by decide)).2.1) rfl

/-- C5: in the authenticated variant, POST is resolved by the credential
guard before any validation or store access: an unconfigured (absent or
blank) server secret yields 500, an absent or falsy credential 401 Missing
admin token, a mismatching credential 403 Invalid admin token — each with
an empty store trace and a response independent of the body — and exactly
a credential equal to the server-held (trimmed) secret lets the request
proceed into the shared POST body handling. -/
theorem admin_guard_trichotomy :
    ∀ (env : SupaEnv) (xA auth : Option String) (br : Except Unit JVal)
      (lr : Except String (List DbRow)) (ir : Except String DbRow),
      supaConfigured env = true →
      (adminGuard env xA auth = .misconfigured ↔ getEnvAdminToken env = none) ∧
      (adminGuard env xA auth = .misconfigured →
        (newsAuthOnRequest env "POST" xA auth br lr ir).1.status = 500 ∧
          (newsAuthOnRequest env "POST" xA auth br lr ir).1.body =
            some (errObj "Server misconfiguration: ADMIN_TOKEN is not set") ∧
          (newsAuthOnRequest env "POST" xA auth br lr ir).2 = []) ∧
      (adminGuard env xA auth = .missing →
        (newsAuthOnRequest env "POST" xA auth br lr ir).1.status = 401 ∧
          (newsAuthOnRequest env "POST" xA auth br lr ir).1.body =
            some (errObj "Missing admin token") ∧
          (newsAuthOnRequest env "POST" xA auth br lr ir).2 = []) ∧
      (adminGuard env xA auth = .invalid →
        (newsAuthOnRequest env "POST" xA auth br lr ir).1.status = 403 ∧
          (newsAuthOnRequest env "POST" xA auth br lr ir).1.body =
            some (errObj "Invalid admin token") ∧
          (newsAuthOnRequest env "POST" xA auth br lr ir).2 = []) ∧
      (adminGuard env xA auth = .authorized →
        newsAuthOnRequest env "POST" xA auth br lr ir = newsPostCore env br ir) ∧
      (adminGuard env xA auth = .authorized ↔
        ∃ expected provided, getEnvAdminToken env = some expected ∧
          readAdminTokenFromRequest xA auth = some provided ∧ provided ≠ "" ∧
          provided = expected) := by
  intro env xA auth br lr ir hcfg
  refine ⟨?_, ?_, ?_, ?_, ?_, ?_⟩
  · constructor
    · intro h
      cases he : getEnvAdminToken env with
      | none => rfl
      | some expected =>
        rw [adminGuard, he] at h
        cases hr : readAdminTokenFromRequest xA auth with
        | none => rw [hr] at h; cases h
        | some provided =>
          rw [hr] at h
          by_cases hp : (provided == "") = true
          · simp [hp] at h
          · simp only [Bool.not_eq_true] at hp
            by_cases hq : (provided == expected) = true
            · simp [hp, hq] at h
            · simp only [Bool.not_eq_true] at hq
              simp [hp, hq] at h
    · intro h
      rw [adminGuard, h]
  · intro h
    refine ⟨?_, ?_, ?_⟩ <;> simp [newsAuthOnRequest, hcfg, h, itemJson]
  · intro h
    refine ⟨?_, ?_, ?_⟩ <;> simp [newsAuthOnRequest, hcfg, h, itemJson]
  · intro h
    refine ⟨?_, ?_, ?_⟩ <;> simp [newsAuthOnRequest, hcfg, h, itemJson]
  · intro h
    simp [newsAuthOnRequest, hcfg, h]
  · constructor
    · intro h
      rw [adminGuard] at h
      cases he : getEnvAdminToken env with
      | none => rw [he] at h; cases h
      | some expected =>
        rw [he] at h
        cases hr : readAdminTokenFromRequest xA auth with
        | none => rw [hr] at h; cases h
        | some provided =>
          rw [hr] at h
          by_cases hp : (provided == "") = true
          · simp [hp] at h
          · by_cases hq : (provided == expected) = true
            · refine ⟨expected, provided, rfl, rfl, by simpa using hp, by simpa using hq⟩
            · simp [hp, hq] at h
    · rintro ⟨expected, provided, he, hr, hp, hq⟩
      rw [adminGuard, he, hr]
      subst hq
      simp [hp]

/-- A configured environment without an admin secret, for witnesses. -/
def noTokenEnv : SupaEnv :=
  { SUPABASE_URL := some "u", SUPABASE_SERVICE_ROLE_KEY := some "k",
    SUPABASE_TABLE := none, ADMIN_TOKEN := none }

/-- C5 witness: unconfigured secret, missing credential, wrong credential
and matching credential at concrete values. -/
theorem admin_guard_trichotomy_witness :
    ((newsAuthOnRequest noTokenEnv "POST" none none (.error ())
        (.error "e") (.error "e")).1.status = 500) ∧
      ((newsAuthOnRequest sampleEnv "POST" none none (.error ()) (.error "e")
          (.error "e")).1.status = 401) ∧
      ((newsAuthOnRequest sampleEnv "POST" (some "wrong") none (.error ()) (.error "e")
          (.error "e")).1.status = 403) ∧
      (newsAuthOnRequest sampleEnv "POST" (some "secret") none (.error ()) (.error "e")
          (.error "e") = newsPostCore sampleEnv (.error ()) (.error "e")) := by
  refine ⟨?_, ?_, ?_, ?_⟩
  · exact ((admin_guard_trichotomy noTokenEnv none none (.error ()) (.error "e")
      (.error "e") (by decide)).2.1 rfl).1
  · exact ((admin_guard_trichotomy sampleEnv none none (.error ()) (.error "e")
      (.error "e") (by decide)).2.2.1 rfl).1
  · exact ((admin_guard_trichotomy sampleEnv (some "wrong") none (.error ())
      (.error "e") (.error "e") (by decide)).2.2.2.1 rfl).1
  · exact (admin_guard_trichotomy sampleEnv (some "secret") none (.error ())
      (.error "e") (.error "e") (by decide)).2.2.2.2.1 rfl

/-! ### Typed create bodies (the documented POST payload) -/

/-- A create body with mandatory title/date/category and typed optional
fields, as the POST contract documents them. -/
structure CreateBody where
  title : String
  date : String
  category : String
  content : Option String := none
  fileUrl : Option String := none
  fileName : Option String := none
  fileSize : Option String := none
  views : Option Int := none
  isNew : Option Bool := none
  showOnHome : Option Bool := none
  imageUrl : Option String := none

/-- The JSON object for a typed create body. -/
def CreateBody.toJVal (b : CreateBody) : JVal :=
  .jobj
    ([("title", .jstr b.title), ("date", .jstr b.date),
      ("category", .jstr b.category)] ++
     optEntry "content" (b.content.map .jstr) ++
     optEntry "fileUrl" (b.fileUrl.map .jstr) ++
     optEntry "fileName" (b.fileName.map .jstr) ++
     optEntry "fileSize" (b.fileSize.map .jstr) ++
     optEntry "views" (b.views.map .jnum) ++
     optEntry "isNew" (b.isNew.map .jbool) ++
     optEntry "showOnHome" (b.showOnHome.map .jbool) ++
     optEntry "imageUrl" (b.imageUrl.map .jstr))

theorem mkIns_title (b : CreateBody) :
    (mkInsertRow b.toJVal).title = .jstr b.title := by
  simp [mkInsertRow, CreateBody.toJVal, JVal.pget, JVal.get, lookup_append,
    lookup_optEntry, List.lookup]

theorem mkIns_date (b : CreateBody) :
    (mkInsertRow b.toJVal).date = .jstr b.date := by
  simp [mkInsertRow, CreateBody.toJVal, JVal.pget, JVal.get, lookup_append,
    lookup_optEntry, List.lookup]

theorem mkIns_category (b : CreateBody) :
    (mkInsertRow b.toJVal).category = .jstr b.category := by
  simp [mkInsertRow, CreateBody.toJVal, JVal.pget, JVal.get, lookup_append,
    lookup_optEntry, List.lookup]

theorem mkIns_content (b : CreateBody) :
    (mkInsertRow b.toJVal).content = .jstr (b.content.getD "") := by
  cases h : b.content <;>
    simp [mkInsertRow, CreateBody.toJVal, JVal.pget, JVal.get, lookup_append,
      lookup_optEntry, List.lookup, h, nnEmpty]

theorem mkIns_file_url (b : CreateBody) :
    (mkInsertRow b.toJVal).file_url = embNullable b.fileUrl := by
  cases h : b.fileUrl <;>
    simp [mkInsertRow, CreateBody.toJVal, JVal.pget, JVal.get, lookup_append,
      lookup_optEntry, List.lookup, h, nnNull, embNullable]

theorem mkIns_file_name (b : CreateBody) :
    (mkInsertRow b.toJVal).file_name = embNullable b.fileName := by
  cases h : b.fileName <;>
    simp [mkInsertRow, CreateBody.toJVal, JVal.pget, JVal.get, lookup_append,
      lookup_optEntry, List.lookup, h, nnNull, embNullable]

theorem mkIns_file_size (b : CreateBody) :
    (mkInsertRow b.toJVal).file_size = embNullable b.fileSize := by
  cases h : b.fileSize <;>
    simp [mkInsertRow, CreateBody.toJVal, JVal.pget, JVal.get, lookup_append,
      lookup_optEntry, List.lookup, h, nnNull, embNullable]

theorem mkIns_views (b : CreateBody) :
    (mkInsertRow b.toJVal).views = .jnum (b.views.getD 0) := by
  cases h : b.views <;>
    simp [mkInsertRow, CreateBody.toJVal, JVal.pget, JVal.get, lookup_append,
      lookup_optEntry, List.lookup, h]

theorem mkIns_is_new (b : CreateBody) :
    (mkInsertRow b.toJVal).is_new = b.isNew.getD false := by
  cases h : b.isNew <;>
    simp [mkInsertRow, CreateBody.toJVal, JVal.pget, JVal.get, lookup_append,
      lookup_optEntry, List.lookup, h, jsTruthy]

theorem mkIns_show_on_home (b : CreateBody) :
    (mkInsertRow b.toJVal).show_on_home = b.showOnHome.getD false := by
  cases h : b.showOnHome <;>
    simp [mkInsertRow, CreateBody.toJVal, JVal.pget, JVal.get, lookup_append,
      lookup_optEntry, List.lookup, h, jsTruthy]

theorem mkIns_image_url (b : CreateBody) :
    (mkInsertRow b.toJVal).image_url = embNullable b.imageUrl := by
  cases h : b.imageUrl <;>
    simp [mkInsertRow, CreateBody.toJVal, JVal.pget, JVal.get, lookup_append,
      lookup_optEntry, List.lookup, h, nnNull, embNullable]

theorem validate_createBody (b : CreateBody) (ht : b.title ≠ "") (hd : b.date ≠ "")
    (hc : b.category ∈ ["주보", "공지사항", "행사안내"]) :
    validateCreate b.toJVal = none := by
  have pt : b.toJVal.pget "title" = .jstr b.title := by
    simp [CreateBody.toJVal, JVal.pget, JVal.get, lookup_append, lookup_optEntry,
      List.lookup]
  have pd : b.toJVal.pget "date" = .jstr b.date := by
    simp [CreateBody.toJVal, JVal.pget, JVal.get, lookup_append, lookup_optEntry,
      List.lookup]
  have gc : b.toJVal.get "category" = some (.jstr b.category) := by
    simp [CreateBody.toJVal, JVal.get, lookup_append, lookup_optEntry, List.lookup]
  have hmem : ["주보", "공지사항", "행사안내"].contains b.category = true := by
    simpa using hc
  have hb : (!jsTruthy b.toJVal || jsTypeof b.toJVal != "object") = false := by
    simp [CreateBody.toJVal, jsTruthy, jsTypeof]
  have hti : (!jsTruthy (b.toJVal.pget "title") ||
      jsTypeof (b.toJVal.pget "title") != "string") = false := by
    simp [pt, jsTruthy, jsTypeof, ht]
  have hda : (!jsTruthy (b.toJVal.pget "date") ||
      jsTypeof (b.toJVal.pget "date") != "string") = false := by
    simp [pd, jsTruthy, jsTypeof, hd]
  have hcat : categoryOk b.toJVal = true := by
    simp [categoryOk, gc]
    simpa using hc
  simp [validateCreate, hb, hti, hda, hcat]

/-- The stored row returned by insert-select-single agrees with the
inserted record columnwise. -/
def rowMatchesInsert (r : DbRow) (ins : InsertRow) : Prop :=
  JVal.jstr r.title = ins.title ∧ JVal.jstr r.date = ins.date ∧
  JVal.jstr r.category = ins.category ∧ JVal.jstr r.content = ins.content ∧
  r.file_url = ins.file_url ∧ r.file_name = ins.file_name ∧
  r.file_size = ins.file_size ∧ JVal.jnum r.views = ins.views ∧
  r.is_new = ins.is_new ∧ r.show_on_home = ins.show_on_home ∧
  r.image_url = ins.image_url

/-- C8: a valid create body passes validation, and the row the store
persists for it maps back through toApi — as the list operation maps every
row — to the submitted title, date, category and content, with every
provided optional field returned under its camelCase name with its
submitted value. -/
theorem create_list_round_trip :
    (∀ (b : CreateBody) (r : DbRow),
        b.title ≠ "" → b.date ≠ "" → b.category ∈ ["주보", "공지사항", "행사안내"] →
        rowMatchesInsert r (mkInsertRow b.toJVal) →
        validateCreate b.toJVal = none ∧
          (toApi r).title = b.title ∧ (toApi r).date = b.date ∧
          (toApi r).category = b.category ∧ (toApi r).content = b.content.getD "" ∧
          (toApi r).fileUrl = b.fileUrl.map .jstr ∧
          (toApi r).fileName = b.fileName.map .jstr ∧
          (toApi r).fileSize = b.fileSize.map .jstr ∧
          (toApi r).views = b.views.getD 0 ∧
          (toApi r).isNew = b.isNew.getD false ∧
          (toApi r).showOnHome = b.showOnHome.getD false ∧
          (toApi r).imageUrl = b.imageUrl.map .jstr) ∧
    (∀ (env : SupaEnv) (rows : List DbRow) (br : Except Unit JVal)
        (ir : Except String DbRow),
        supaConfigured env = true →
        (newsCreateOnRequest env "GET" br (.ok rows) ir).1.status = 200 ∧
          (newsCreateOnRequest env "GET" br (.ok rows) ir).1.body =
            some (.jobj [("ok", .jbool true), ("count", .jnum rows.length),
              ("items", .jarr (rows.map (fun r => apiPostToJVal (toApi r))))])) := by
  constructor
  · intro b r ht hd hc hm
    obtain ⟨h1, h2, h3, h4, h5, h6, h7, h8, h9, h10, h11⟩ := hm
    rw [mkIns_title b] at h1
    rw [mkIns_date b] at h2
    rw [mkIns_category b] at h3
    rw [mkIns_content b] at h4
    rw [mkIns_file_url b] at h5
    rw [mkIns_file_name b] at h6
    rw [mkIns_file_size b] at h7
    rw [mkIns_views b] at h8
    rw [mkIns_is_new b] at h9
    rw [mkIns_show_on_home b] at h10
    rw [mkIns_image_url b] at h11
    simp only [JVal.jstr.injEq] at h1 h2 h3 h4
    simp only [JVal.jnum.injEq] at h8
    refine ⟨validate_createBody b ht hd hc, h1, h2, h3, h4, ?_, ?_, ?_, h8, h9, h10, ?_⟩
    · rw [show (toApi r).fileUrl = nnUndef r.file_url from rfl, h5]
      cases b.fileUrl <;> simp [embNullable, nnUndef]
    · rw [show (toApi r).fileName = nnUndef r.file_name from rfl, h6]
      cases b.fileName <;> simp [embNullable, nnUndef]
    · rw [show (toApi r).fileSize = nnUndef r.file_size from rfl, h7]
      cases b.fileSize <;> simp [embNullable, nnUndef]
    · rw [show (toApi r).imageUrl = nnUndef r.image_url from rfl, h11]
      cases b.imageUrl <;> simp [embNullable, nnUndef]
  · intro env rows br ir hcfg
    constructor <;> simp [newsCreateOnRequest, newsListResponse, hcfg, itemJson]

/-- A concrete create body for the round-trip witness. -/
def sampleCreate : CreateBody :=
  { title := "a", date := "2024-01-01", category := "공지사항",
    fileUrl := some "https://f.example/x.pdf", views := some 3, isNew := some true }

/-- The row the store would persist for sampleCreate. -/
def sampleInserted : DbRow :=
  { id := 1, title := "a", date := "2024-01-01", category := "공지사항",
    content := "", file_url := .jstr "https://f.example/x.pdf", file_name := .jnull,
    file_size := .jnull, views := 3, is_new := true, show_on_home := false,
    image_url := .jnull }

/-- C8 witness: the concrete round trip of sampleCreate. -/
theorem create_list_round_trip_witness :
    validateCreate sampleCreate.toJVal = none ∧
      (toApi sampleInserted).title = sampleCreate.title ∧
      (toApi sampleInserted).fileUrl = some (.jstr "https://f.example/x.pdf") ∧
      (toApi sampleInserted).views = 3 ∧
      (toApi sampleInserted).isNew = true := by
  have h := create_list_round_trip.1 sampleCreate sampleInserted (by decide) (by decide)
    (by decide) ⟨rfl, rfl, rfl, rfl, rfl, rfl, rfl, rfl, rfl, rfl, rfl⟩
  exact ⟨h.1, h.2.1, h.2.2.2.2.2.1, h.2.2.2.2.2.2.2.2.1, h.2.2.2.2.2.2.2.2.2.1⟩

end ChurchApi